import Mathlib

/-!
Shallow embedding of the Boardkit desktop shell
(`src/apps/desktop/src-tauri/src/lib.rs`).

The file models:
* the global-shortcut data (`Modifiers`, `Code`, `Shortcut`, `ShortcutState`)
  as used by the `tauri_plugin_global_shortcut` handler closure;
* the two runtime handlers (the global-shortcut handler and the
  `on_menu_event` dispatcher) as trace-producing functions over an abstract
  application world that maps window labels to window handles, where each
  window handle carries the (arbitrary, host-chosen) results of the fallible
  calls `show`, `set_focus` and `emit`;
* `create_menu` and the `setup` closure as computations in `Except Nat`,
  where a host oracle `HostCalls` decides which of the fallible toolkit
  calls (each `?` in the Rust source, numbered in source order) succeeds.
-/

/-! ## Shortcut data model -/

/-- Modifier bitflags, as in the global-shortcut plugin: a bitwise-or of
distinct flag bits. -/
abbrev Modifiers := Nat

def Modifiers.ALT : Modifiers := 1
def Modifiers.CONTROL : Modifiers := 2
def Modifiers.SHIFT : Modifiers := 4
def Modifiers.SUPER : Modifiers := 8

/-- Key codes (the subset of the host key-code enum that matters here). -/
inductive Code where
  | Space
  | Enter
  | KeyA
  | KeyK
  | Digit0
deriving DecidableEq, Repr

/-- A registered shortcut: modifier bits plus a key code. -/
structure Shortcut where
  mods : Modifiers
  key : Code
deriving DecidableEq, Repr

/-- `Shortcut::new(mods, key)`: a missing modifier set is normalized to the
empty bit set, as in the plugin crate. -/
def Shortcut.new (mods : Option Modifiers) (key : Code) : Shortcut :=
  { mods := mods.getD 0, key := key }

/-- State carried by a global-shortcut event. -/
inductive ShortcutState where
  | Pressed
  | Released
deriving DecidableEq, Repr

/-- A global-shortcut event delivered to the handler. -/
structure ShortcutEvent where
  state : ShortcutState
deriving DecidableEq, Repr

/-! ## Application world and traces -/

/-- The results the host returns for each fallible window call; the Rust
code discards all of them with `let _ = ...`. -/
structure WindowOps where
  showResult : Except Nat Unit
  setFocusResult : Except Nat Unit
  emitResult : String → Except Nat Unit

/-- The application handle as the handlers see it: a window lookup by
label (`get_webview_window`). -/
structure AppWorld where
  windows : String → Option WindowOps

/-- One host call a handler performs. Emitting carries the event name and
the (unit) payload. -/
inductive HostAction where
  | show
  | setFocus
  | emit (name : String) (payload : Unit)
deriving DecidableEq, Repr

/-- A performed host call together with the result the host returned for
it (the Rust code discards the result). -/
structure HostCall where
  action : HostAction
  result : Except Nat Unit

/-- The names (with payloads) of the events emitted in a trace. -/
def emittedEvents (trace : List HostCall) : List (String × Unit) :=
  trace.filterMap fun c =>
    match c.action with
    | HostAction.emit name payload => some (name, payload)
    | _ => none

/-- The actions performed in a trace, results forgotten. -/
def actionsOf (trace : List HostCall) : List HostAction :=
  trace.map HostCall.action

/-! ## The global-shortcut handler -/

/-- The shortcut the handler closure constructs and compares against
(lib.rs line 99). -/
def cmd_shift_space : Shortcut :=
  Shortcut.new (some (Modifiers.SUPER ||| Modifiers.SHIFT)) Code.Space

/-- The global-shortcut handler closure (lib.rs lines 97-110): on a
`Pressed` event whose shortcut equals `cmd_shift_space`, look up the
window labeled "main"; if present, call `show`, `set_focus`, and
`emit "open-command-palette"` with unit payload, discarding each result. -/
def shortcut_handler (app : AppWorld) (shortcut : Shortcut) (event : ShortcutEvent) :
    List HostCall :=
  if event.state = ShortcutState.Pressed then
    if shortcut = cmd_shift_space then
      match app.windows "main" with
      | some window =>
          [ { action := HostAction.show, result := window.showResult },
            { action := HostAction.setFocus, result := window.setFocusResult },
            { action := HostAction.emit "open-command-palette" (), result := window.emitResult "open-command-palette" } ]
      | none => []
    else []
  else []

/-! ## The menu-event dispatcher -/

/-- A menu event: the activated item's string identifier
(`event.id().as_ref()`). -/
structure MenuEvent where
  id : String

/-- The `on_menu_event` dispatcher closure (lib.rs lines 124-148): look up
the window labeled "main"; if present, switch on the item id and emit the
mapped payload-less event; unrecognized ids fall to the empty arm. -/
def on_menu_event (app : AppWorld) (event : MenuEvent) : List HostCall :=
  match app.windows "main" with
  | some window =>
      match event.id with
      | "new_board" =>
          [ { action := HostAction.emit "menu-new-board" (), result := window.emitResult "menu-new-board" } ]
      | "open_file" =>
          [ { action := HostAction.emit "menu-open-file" (), result := window.emitResult "menu-open-file" } ]
      | "save" =>
          [ { action := HostAction.emit "menu-save" (), result := window.emitResult "menu-save" } ]
      | "export" =>
          [ { action := HostAction.emit "menu-export" (), result := window.emitResult "menu-export" } ]
      | "command_palette" =>
          [ { action := HostAction.emit "open-command-palette" (), result := window.emitResult "open-command-palette" } ]
      | "reset_view" =>
          [ { action := HostAction.emit "menu-reset-view" (), result := window.emitResult "menu-reset-view" } ]
      | _ => []
  | none => []

/-! ## Concrete worlds used as witnesses -/

/-- A world with no windows at all. -/
def noWindowApp : AppWorld := { windows := fun _ => none }

/-- Window ops where every call succeeds. -/
def okWindow : WindowOps :=
  { showResult := Except.ok (), setFocusResult := Except.ok (), emitResult := fun _ => Except.ok () }

/-- Window ops where every call fails. -/
def failWindow : WindowOps :=
  { showResult := Except.error 0, setFocusResult := Except.error 1, emitResult := fun _ => Except.error 2 }

/-- A world with exactly one window, labeled "main". -/
def mainOnlyApp (w : WindowOps) : AppWorld :=
  { windows := fun s => if s = "main" then some w else none }

/-! ## Menu data model -/

/-- Host-predefined menu items (`PredefinedMenuItem::*`), each with the
optional text override the source passes. -/
inductive Predefined where
  | about (text : Option String)
  | separator
  | services (text : Option String)
  | hide (text : Option String)
  | hideOthers (text : Option String)
  | showAll (text : Option String)
  | quit (text : Option String)
  | undo (text : Option String)
  | redo (text : Option String)
  | cut (text : Option String)
  | copy (text : Option String)
  | paste (text : Option String)
  | selectAll (text : Option String)
  | fullscreen (text : Option String)
  | minimize (text : Option String)
  | maximize (text : Option String)
  | closeWindow (text : Option String)
deriving DecidableEq, Repr

/-- A custom menu item (`MenuItem::with_id`): id, label, enabled flag,
optional accelerator. -/
structure MenuItemData where
  id : String
  label : String
  enabled : Bool
  accelerator : Option String
deriving DecidableEq, Repr

/-- An entry of a submenu: either a predefined item or a custom item. -/
inductive MenuEntry where
  | predefined (p : Predefined)
  | custom (m : MenuItemData)
deriving DecidableEq, Repr

/-- A submenu (`Submenu::with_items`): label, enabled flag, entries in
order. -/
structure SubmenuData where
  label : String
  enabled : Bool
  items : List MenuEntry
deriving DecidableEq, Repr

/-- The menu: the ordered list of top-level submenus
(`Menu::with_items`). -/
abbrev MenuTree := List SubmenuData

/-- The custom items of the menu, in traversal order. -/
def customItems (t : MenuTree) : List MenuItemData :=
  t.flatMap fun s =>
    s.items.filterMap fun e =>
      match e with
      | MenuEntry.custom m => some m
      | MenuEntry.predefined _ => none

/-! ## create_menu -/

/-- The host's success oracle for the fallible toolkit calls inside
`create_menu`: call site `n` (in source evaluation order) succeeds iff
`hostCalls n = true`. -/
abbrev HostCalls := Nat → Bool

/-- One fallible toolkit call (`expr?` in the Rust source): call site `n`
either yields the constructed value or fails, and the error (here: the
index of the failing call) propagates. -/
def step (h : HostCalls) (n : Nat) (a : α) : Except Nat α :=
  if h n then Except.ok a else Except.error n

/-- `create_menu` (lib.rs lines 7-87), with the fallible calls numbered in
source evaluation order. Each `?` in the Rust source is a `step`; any
failure short-circuits the rest, as `?` does. -/
def create_menu (h : HostCalls) : Except Nat MenuTree := do
  let about_item ← step h 0 (MenuEntry.predefined (Predefined.about (some "About Boardkit")))
  let sep0 ← step h 1 (MenuEntry.predefined Predefined.separator)
  let services_item ← step h 2 (MenuEntry.predefined (Predefined.services none))
  let sep1 ← step h 3 (MenuEntry.predefined Predefined.separator)
  let hide_item ← step h 4 (MenuEntry.predefined (Predefined.hide none))
  let hide_others ← step h 5 (MenuEntry.predefined (Predefined.hideOthers none))
  let show_all ← step h 6 (MenuEntry.predefined (Predefined.showAll none))
  let sep2 ← step h 7 (MenuEntry.predefined Predefined.separator)
  let quit_item ← step h 8 (MenuEntry.predefined (Predefined.quit none))
  let app_menu ← step h 9 (SubmenuData.mk "Boardkit" true
    [about_item, sep0, services_item, sep1, hide_item, hide_others, show_all, sep2, quit_item])
  let new_board ← step h 10 (MenuEntry.custom (MenuItemData.mk "new_board" "New Board" true (some "CmdOrCtrl+N")))
  let open_file ← step h 11 (MenuEntry.custom (MenuItemData.mk "open_file" "Open..." true (some "CmdOrCtrl+O")))
  let save ← step h 12 (MenuEntry.custom (MenuItemData.mk "save" "Save" true (some "CmdOrCtrl+S")))
  let exportItem ← step h 13 (MenuEntry.custom (MenuItemData.mk "export" "Export as .boardkit" true (some "CmdOrCtrl+Shift+E")))
  let sep3 ← step h 14 (MenuEntry.predefined Predefined.separator)
  let file_menu ← step h 15 (SubmenuData.mk "File" true
    [new_board, open_file, sep3, save, exportItem])
  let undo_item ← step h 16 (MenuEntry.predefined (Predefined.undo none))
  let redo_item ← step h 17 (MenuEntry.predefined (Predefined.redo none))
  let sep4 ← step h 18 (MenuEntry.predefined Predefined.separator)
  let cut_item ← step h 19 (MenuEntry.predefined (Predefined.cut none))
  let copy_item ← step h 20 (MenuEntry.predefined (Predefined.copy none))
  let paste_item ← step h 21 (MenuEntry.predefined (Predefined.paste none))
  let select_all ← step h 22 (MenuEntry.predefined (Predefined.selectAll none))
  let edit_menu ← step h 23 (SubmenuData.mk "Edit" true
    [undo_item, redo_item, sep4, cut_item, copy_item, paste_item, select_all])
  let command_palette ← step h 24 (MenuEntry.custom (MenuItemData.mk "command_palette" "Command Palette..." true (some "CmdOrCtrl+K")))
  let reset_view ← step h 25 (MenuEntry.custom (MenuItemData.mk "reset_view" "Reset View" true (some "CmdOrCtrl+0")))
  let sep5 ← step h 26 (MenuEntry.predefined Predefined.separator)
  let sep6 ← step h 27 (MenuEntry.predefined Predefined.separator)
  let fullscreen_item ← step h 28 (MenuEntry.predefined (Predefined.fullscreen none))
  let view_menu ← step h 29 (SubmenuData.mk "View" true
    [command_palette, sep5, reset_view, sep6, fullscreen_item])
  let minimize_item ← step h 30 (MenuEntry.predefined (Predefined.minimize none))
  let maximize_item ← step h 31 (MenuEntry.predefined (Predefined.maximize none))
  let sep7 ← step h 32 (MenuEntry.predefined Predefined.separator)
  let close_window ← step h 33 (MenuEntry.predefined (Predefined.closeWindow none))
  let window_menu ← step h 34 (SubmenuData.mk "Window" true
    [minimize_item, maximize_item, sep7, close_window])
  step h 35 [app_menu, file_menu, edit_menu, view_menu, window_menu]

/-- The tree `create_menu` builds when every toolkit call succeeds. -/
def boardkitTree : MenuTree :=
  [ SubmenuData.mk "Boardkit" true
      [ MenuEntry.predefined (Predefined.about (some "About Boardkit")),
        MenuEntry.predefined Predefined.separator,
        MenuEntry.predefined (Predefined.services none),
        MenuEntry.predefined Predefined.separator,
        MenuEntry.predefined (Predefined.hide none),
        MenuEntry.predefined (Predefined.hideOthers none),
        MenuEntry.predefined (Predefined.showAll none),
        MenuEntry.predefined Predefined.separator,
        MenuEntry.predefined (Predefined.quit none) ],
    SubmenuData.mk "File" true
      [ MenuEntry.custom (MenuItemData.mk "new_board" "New Board" true (some "CmdOrCtrl+N")),
        MenuEntry.custom (MenuItemData.mk "open_file" "Open..." true (some "CmdOrCtrl+O")),
        MenuEntry.predefined Predefined.separator,
        MenuEntry.custom (MenuItemData.mk "save" "Save" true (some "CmdOrCtrl+S")),
        MenuEntry.custom (MenuItemData.mk "export" "Export as .boardkit" true (some "CmdOrCtrl+Shift+E")) ],
    SubmenuData.mk "Edit" true
      [ MenuEntry.predefined (Predefined.undo none),
        MenuEntry.predefined (Predefined.redo none),
        MenuEntry.predefined Predefined.separator,
        MenuEntry.predefined (Predefined.cut none),
        MenuEntry.predefined (Predefined.copy none),
        MenuEntry.predefined (Predefined.paste none),
        MenuEntry.predefined (Predefined.selectAll none) ],
    SubmenuData.mk "View" true
      [ MenuEntry.custom (MenuItemData.mk "command_palette" "Command Palette..." true (some "CmdOrCtrl+K")),
        MenuEntry.predefined Predefined.separator,
        MenuEntry.custom (MenuItemData.mk "reset_view" "Reset View" true (some "CmdOrCtrl+0")),
        MenuEntry.predefined Predefined.separator,
        MenuEntry.predefined (Predefined.fullscreen none) ],
    SubmenuData.mk "Window" true
      [ MenuEntry.predefined (Predefined.minimize none),
        MenuEntry.predefined (Predefined.maximize none),
        MenuEntry.predefined Predefined.separator,
        MenuEntry.predefined (Predefined.closeWindow none) ] ]

/-! ## The setup closure -/

/-- The host as seen by the `setup` closure: the oracle for the menu
construction calls, plus the results of `app.set_menu` and
`global_shortcut().register`. -/
structure SetupHost where
  menuCalls : HostCalls
  setMenuResult : MenuTree → Except Nat Unit
  registerResult : Shortcut → Except Nat Unit

/-- The shortcut the `setup` closure constructs and registers
(lib.rs lines 119-120). -/
def setupShortcut : Shortcut :=
  Shortcut.new (some (Modifiers.SUPER ||| Modifiers.SHIFT)) Code.Space

/-- The `setup` closure (lib.rs lines 113-123): build the menu, set it,
register the global shortcut; each `?` propagates the first error. -/
def setup (H : SetupHost) : Except Nat Unit := do
  let menu ← create_menu H.menuCalls
  let _ ← H.setMenuResult menu
  let shortcut := setupShortcut
  let _ ← H.registerResult shortcut
  Except.ok ()

/-- A setup host whose menu-construction call number 3 fails and whose
other calls all succeed. -/
def failAtThree : SetupHost :=
  { menuCalls := fun n => n != 3,
    setMenuResult := fun _ => Except.ok (),
    registerResult := fun _ => Except.ok () }

/-! ## Helper lemmas -/

/-- A fallible toolkit call equals `ok v` exactly when it succeeds and
yields `v`. -/
theorem ite_ok_iff {a v : α} {c : Prop} [Decidable c] {n : Nat} :
    ((if c then Except.ok a else Except.error n) = Except.ok v) ↔ (c ∧ a = v) := by
  by_cases hc : c <;> simp [hc]

/-- Whenever `create_menu` succeeds, the tree it returns is exactly
`boardkitTree`. -/
theorem create_menu_ok_eq (h : HostCalls) (t : MenuTree)
    (hok : create_menu h = Except.ok t) : t = boardkitTree := by
  unfold create_menu at hok
  simp only [step, bind, Except.bind] at hok
  repeat' split at hok
  all_goals simp_all [ite_ok_iff, boardkitTree]

/-! ## Claim theorems -/

/-- Claim C1: for every recognized menu item identifier in
{new_board, open_file, save, export, command_palette, reset_view}, when a
window labeled "main" exists, the menu-event dispatcher emits exactly the
one mapped event name (new_board→"menu-new-board",
open_file→"menu-open-file", save→"menu-save", export→"menu-export",
command_palette→"open-command-palette", reset_view→"menu-reset-view")
with no payload, and emits no other event. -/
theorem C1_menu_item_mapping (app : AppWorld) (w : WindowOps)
    (hw : app.windows "main" = some w) :
    emittedEvents (on_menu_event app ⟨"new_board"⟩) = [("menu-new-board", ())] ∧
    emittedEvents (on_menu_event app ⟨"open_file"⟩) = [("menu-open-file", ())] ∧
    emittedEvents (on_menu_event app ⟨"save"⟩) = [("menu-save", ())] ∧
    emittedEvents (on_menu_event app ⟨"export"⟩) = [("menu-export", ())] ∧
    emittedEvents (on_menu_event app ⟨"command_palette"⟩) = [("open-command-palette", ())] ∧
    emittedEvents (on_menu_event app ⟨"reset_view"⟩) = [("menu-reset-view", ())] := by
  simp [on_menu_event, hw, emittedEvents]

/-- Witness for C1: the mapping evaluated in a concrete world whose only
window is labeled "main". -/
theorem C1_witness :
    (mainOnlyApp okWindow).windows "main" = some okWindow ∧
      (emittedEvents (on_menu_event (mainOnlyApp okWindow) ⟨"new_board"⟩) = [("menu-new-board", ())] ∧
       emittedEvents (on_menu_event (mainOnlyApp okWindow) ⟨"open_file"⟩) = [("menu-open-file", ())] ∧
       emittedEvents (on_menu_event (mainOnlyApp okWindow) ⟨"save"⟩) = [("menu-save", ())] ∧
       emittedEvents (on_menu_event (mainOnlyApp okWindow) ⟨"export"⟩) = [("menu-export", ())] ∧
       emittedEvents (on_menu_event (mainOnlyApp okWindow) ⟨"command_palette"⟩) = [("open-command-palette", ())] ∧
       emittedEvents (on_menu_event (mainOnlyApp okWindow) ⟨"reset_view"⟩) = [("menu-reset-view", ())]) :=
  ⟨by simp [mainOnlyApp], C1_menu_item_mapping (mainOnlyApp okWindow) okWindow (by simp [mainOnlyApp])⟩

/-- Counterexample to claim C2 as stated: in a world with no "main"
window, a Pressed event whose shortcut is exactly super+shift+space
produces no emit, so "emit occurs iff Pressed and shortcut matches" fails
when quantified over every handler invocation. -/
theorem C2_counterexample :
    ¬ (∀ (app : AppWorld) (sc : Shortcut) (ev : ShortcutEvent),
        ("open-command-palette", ()) ∈ emittedEvents (shortcut_handler app sc ev) ↔
          (ev.state = ShortcutState.Pressed ∧ sc = cmd_shift_space)) := by
  intro hclaim
  have h := (hclaim noWindowApp cmd_shift_space ⟨ShortcutState.Pressed⟩).mpr ⟨rfl, rfl⟩
  simp [shortcut_handler, noWindowApp, emittedEvents] at h

/-- Claim C2 (amended): the shortcut handler emits "open-command-palette"
exactly when the event state is Pressed, the shortcut equals
super+shift+space, and a webview window labeled "main" exists. -/
theorem C2_amended_emit_iff (app : AppWorld) (sc : Shortcut) (ev : ShortcutEvent) :
    ("open-command-palette", ()) ∈ emittedEvents (shortcut_handler app sc ev) ↔
      (ev.state = ShortcutState.Pressed ∧ sc = cmd_shift_space ∧ (app.windows "main").isSome) := by
  obtain ⟨st⟩ := ev
  unfold shortcut_handler
  cases st <;> cases hw : app.windows "main" <;> by_cases hsc : sc = cmd_shift_space <;>
    simp_all [emittedEvents]

/-- Claim C3: when no window labeled "main" exists, both the shortcut
handler and the menu dispatcher perform no host call at all (so emit no
event) and return normally. -/
theorem C3_no_main_window_no_event (app : AppWorld) (sc : Shortcut)
    (ev : ShortcutEvent) (mev : MenuEvent) (hw : app.windows "main" = none) :
    shortcut_handler app sc ev = [] ∧ on_menu_event app mev = [] := by
  constructor
  · simp [shortcut_handler, hw]
  · simp [on_menu_event, hw]

/-- Witness for C3: both handlers evaluated in the windowless world. -/
theorem C3_witness :
    noWindowApp.windows "main" = none ∧
      (shortcut_handler noWindowApp cmd_shift_space ⟨ShortcutState.Pressed⟩ = [] ∧
       on_menu_event noWindowApp ⟨"save"⟩ = []) :=
  ⟨rfl, C3_no_main_window_no_event noWindowApp cmd_shift_space ⟨ShortcutState.Pressed⟩ ⟨"save"⟩ rfl⟩

/-- Claim C4: a menu activation whose identifier is not one of the six
recognized ids makes the dispatcher emit no event. -/
theorem C4_unrecognized_id_no_emit (app : AppWorld) (mev : MenuEvent)
    (hid : mev.id ∉ ["new_board", "open_file", "save", "export", "command_palette", "reset_view"]) :
    emittedEvents (on_menu_event app mev) = [] := by
  unfold on_menu_event
  cases hw : app.windows "main"
  · simp [emittedEvents]
  · simp only [List.mem_cons, List.not_mem_nil, or_false] at hid
    push_neg at hid
    repeat' split <;> simp_all [emittedEvents]

/-- Witness for C4: the unrecognized id "bogus" in a world with a "main"
window emits nothing. -/
theorem C4_witness :
    (⟨"bogus"⟩ : MenuEvent).id ∉ ["new_board", "open_file", "save", "export", "command_palette", "reset_view"] ∧
      emittedEvents (on_menu_event (mainOnlyApp okWindow) ⟨"bogus"⟩) = [] :=
  ⟨by decide, C4_unrecognized_id_no_emit (mainOnlyApp okWindow) ⟨"bogus"⟩ (by decide)⟩

/-- Claim C5: on a Pressed event matching super+shift+space with the
"main" window present, the shortcut handler performs exactly show, then
set_focus, then emit "open-command-palette" with unit payload, in that
order. -/
theorem C5_press_match_trace (app : AppWorld) (w : WindowOps) (sc : Shortcut)
    (ev : ShortcutEvent) (hst : ev.state = ShortcutState.Pressed)
    (hsc : sc = cmd_shift_space) (hw : app.windows "main" = some w) :
    shortcut_handler app sc ev =
      [ ⟨HostAction.show, w.showResult⟩,
        ⟨HostAction.setFocus, w.setFocusResult⟩,
        ⟨HostAction.emit "open-command-palette" (), w.emitResult "open-command-palette"⟩ ] := by
  simp [shortcut_handler, hst, hsc, hw]

/-- Witness for C5: the three-action trace in a concrete world. -/
theorem C5_witness :
    ((⟨ShortcutState.Pressed⟩ : ShortcutEvent).state = ShortcutState.Pressed ∧
      cmd_shift_space = cmd_shift_space ∧
      (mainOnlyApp okWindow).windows "main" = some okWindow) ∧
    shortcut_handler (mainOnlyApp okWindow) cmd_shift_space ⟨ShortcutState.Pressed⟩ =
      [ ⟨HostAction.show, okWindow.showResult⟩,
        ⟨HostAction.setFocus, okWindow.setFocusResult⟩,
        ⟨HostAction.emit "open-command-palette" (), okWindow.emitResult "open-command-palette"⟩ ] :=
  ⟨⟨rfl, rfl, by simp [mainOnlyApp]⟩,
    C5_press_match_trace (mainOnlyApp okWindow) okWindow cmd_shift_space ⟨ShortcutState.Pressed⟩
      rfl rfl (by simp [mainOnlyApp])⟩

/-- Claim C6: the results the host returns for show, set_focus and emit
never influence which actions a handler performs: two worlds that agree
on which windows exist (but may return arbitrary, e.g. failing, results)
produce identical action sequences in both handlers. -/
theorem C6_results_do_not_affect_actions (app1 app2 : AppWorld)
    (hpres : ∀ s, (app1.windows s).isSome = (app2.windows s).isSome)
    (sc : Shortcut) (ev : ShortcutEvent) (mev : MenuEvent) :
    actionsOf (shortcut_handler app1 sc ev) = actionsOf (shortcut_handler app2 sc ev) ∧
    actionsOf (on_menu_event app1 mev) = actionsOf (on_menu_event app2 mev) := by
  have hmain := hpres "main"
  constructor
  · unfold shortcut_handler
    by_cases hev : ev.state = ShortcutState.Pressed <;>
      by_cases hsc : sc = cmd_shift_space <;>
        cases h1 : app1.windows "main" <;> cases h2 : app2.windows "main" <;>
          simp_all [actionsOf]
  · unfold on_menu_event
    cases h1 : app1.windows "main" <;> cases h2 : app2.windows "main" <;>
      simp_all [actionsOf]
    repeat' split <;> simp_all

/-- Witness for C6: an all-succeeding window versus an all-failing window
yield the same action sequences. -/
theorem C6_witness :
    (∀ s, ((mainOnlyApp okWindow).windows s).isSome = ((mainOnlyApp failWindow).windows s).isSome) ∧
      (actionsOf (shortcut_handler (mainOnlyApp okWindow) cmd_shift_space ⟨ShortcutState.Pressed⟩) =
         actionsOf (shortcut_handler (mainOnlyApp failWindow) cmd_shift_space ⟨ShortcutState.Pressed⟩) ∧
       actionsOf (on_menu_event (mainOnlyApp okWindow) ⟨"save"⟩) =
         actionsOf (on_menu_event (mainOnlyApp failWindow) ⟨"save"⟩)) :=
  ⟨fun s => by by_cases hs : s = "main" <;> simp [mainOnlyApp, hs],
    C6_results_do_not_affect_actions (mainOnlyApp okWindow) (mainOnlyApp failWindow)
      (fun s => by by_cases hs : s = "main" <;> simp [mainOnlyApp, hs])
      cmd_shift_space ⟨ShortcutState.Pressed⟩ ⟨"save"⟩⟩

/-- Claim C7: any error during menu construction, set_menu, or shortcut
registration propagates out of the setup closure: if any of those calls
returns an error, setup returns that same error. -/
theorem C7_setup_error_propagation (H : SetupHost) (e : Nat) :
    (create_menu H.menuCalls = Except.error e ∨
     (∃ m, create_menu H.menuCalls = Except.ok m ∧ H.setMenuResult m = Except.error e) ∨
     (∃ m, create_menu H.menuCalls = Except.ok m ∧ H.setMenuResult m = Except.ok () ∧
        H.registerResult setupShortcut = Except.error e)) →
    setup H = Except.error e := by
  intro hyp
  unfold setup
  rcases hyp with h | ⟨m, hm, hs⟩ | ⟨m, hm, hs, hr⟩
  · simp [h, bind, Except.bind]
  · simp [hm, hs, bind, Except.bind]
  · simp [hm, hs, hr, bind, Except.bind]

/-- Witness for C7: a host whose menu-construction call 3 fails makes
setup fail with that error. -/
theorem C7_witness :
    create_menu failAtThree.menuCalls = Except.error 3 ∧ setup failAtThree = Except.error 3 :=
  ⟨rfl, C7_setup_error_propagation failAtThree 3 (Or.inl rfl)⟩

/-- Claim C8: menu construction is deterministic and idempotent: any two
successful runs of create_menu (in particular two runs with identical
inputs) yield structurally identical trees. -/
theorem C8_create_menu_deterministic (h1 h2 : HostCalls) (t1 t2 : MenuTree)
    (ho1 : create_menu h1 = Except.ok t1) (ho2 : create_menu h2 = Except.ok t2) :
    t1 = t2 := by
  rw [create_menu_ok_eq h1 t1 ho1, create_menu_ok_eq h2 t2 ho2]

/-- Witness for C8: two runs with the all-succeeding host. -/
theorem C8_witness :
    create_menu (fun _ => true) = Except.ok boardkitTree ∧
      create_menu (fun _ => true) = Except.ok boardkitTree ∧
      boardkitTree = boardkitTree :=
  ⟨rfl, rfl, C8_create_menu_deterministic (fun _ => true) (fun _ => true)
    boardkitTree boardkitTree rfl rfl⟩

/-- Claim C9: a successful create_menu returns exactly the five top-level
submenus Boardkit (the application menu), File, Edit, View, Window in
that order, and its six custom items are new_board, open_file, save,
export, command_palette, reset_view in order, each with a nonempty label
and an accelerator. -/
theorem C9_menu_shape (h : HostCalls) (t : MenuTree)
    (hok : create_menu h = Except.ok t) :
    t.map SubmenuData.label = ["Boardkit", "File", "Edit", "View", "Window"] ∧
    (customItems t).map MenuItemData.id =
      ["new_board", "open_file", "save", "export", "command_palette", "reset_view"] ∧
    ∀ m ∈ customItems t, m.label ≠ "" ∧ m.accelerator.isSome := by
  have ht := create_menu_ok_eq h t hok
  subst ht
  refine ⟨rfl, rfl, ?_⟩
  decide

/-- Witness for C9: the shape facts evaluated on the all-succeeding
host's tree. -/
theorem C9_witness :
    create_menu (fun _ => true) = Except.ok boardkitTree ∧
      (boardkitTree.map SubmenuData.label = ["Boardkit", "File", "Edit", "View", "Window"] ∧
       (customItems boardkitTree).map MenuItemData.id =
         ["new_board", "open_file", "save", "export", "command_palette", "reset_view"] ∧
       ∀ m ∈ customItems boardkitTree, m.label ≠ "" ∧ m.accelerator.isSome) :=
  ⟨rfl, C9_menu_shape (fun _ => true) boardkitTree rfl⟩

/-- Claim C10: the shortcut registered during setup and the shortcut the
handler compares incoming events against are the same value, both built
from modifiers SUPER|SHIFT and key code Space. -/
theorem C10_registered_equals_handler_shortcut : setupShortcut = cmd_shift_space := rfl
